import Mathlib

/-!
Verification of the request-validation-and-proxy component of the
AI-Microservices web gateway (`src/web-service/src/server.ts`).

The gateway's route handlers for `POST /api/analyze`,
`POST /api/batch-analyze` and `GET /api/health` are shallowly embedded as
pure Lean functions.  JavaScript request-body values are modelled by
`JSValue`; strings are modelled as `List Char`; the single outbound axios
call of each handler is modelled by an `UpstreamResult` parameter
(success, or the classified axios failure), and each handler additionally
returns the list of payloads it sent upstream, so that short-circuiting
before the network call is visible in the model.
-/

/-- A JavaScript value as it can appear in a parsed JSON request body
(plus `undefined` for a missing field).  Numbers are modelled as `Int`:
the handlers only ever use a number's truthiness.  Non-empty objects are
collapsed into the single constructor `obj`: the handlers never inspect
an object's fields, only its truthiness and its (non-)stringness. -/
inductive JSValue where
  | str (s : List Char)
  | num (n : Int)
  | bool (b : Bool)
  | null
  | undefined
  | arr (xs : List JSValue)
  | obj


/-- JavaScript truthiness of a `JSValue` (`!text` in the source is
`!(truthy text)`): the empty string, `0`, `false`, `null` and
`undefined` are falsy, everything else (arrays and objects included)
is truthy. -/
def truthy : JSValue → Bool
  | .str s => !s.isEmpty
  | .num n => n != 0
  | .bool b => b
  | .null => false
  | .undefined => false
  | .arr _ => true
  | .obj => true

/-- The whitespace class used by `String.prototype.trim` restricted to
the characters relevant here. -/
def isJsWs (c : Char) : Bool :=
  c == ' ' || c == '\t' || c == '\n' || c == '\r'

/-- `s.trim()` from the source: drop whitespace from both ends. -/
def jsTrim (s : List Char) : List Char :=
  ((s.dropWhile isJsWs).reverse.dropWhile isJsWs).reverse

/-- Outcome of the single outbound axios call of a handler, as the
handler's catch block can observe it: either the 2xx response body, or
the classified `AxiosError` (`error.code === 'ECONNREFUSED'`, a non-2xx
`error.response` with its status and body, `error.code === 'ENOTFOUND'`,
a timeout, or any other failure). -/
inductive UpstreamResult where
  | success (body : JSValue)
  | connRefused
  | httpResponse (status : Nat) (body : String)
  | nameResolutionFailed
  | timeout
  | other (msg : String)


/-- The HTTP response a handler produces: `res.json(data)` (status 200)
or `res.status(st).json({error, details?})`. -/
inductive GatewayResponse where
  | ok (body : JSValue)
  | err (status : Nat) (error : String) (details : Option String)


/-- The HTTP status code of a `GatewayResponse`. -/
def GatewayResponse.statusCode : GatewayResponse → Nat
  | .ok _ => 200
  | .err st _ _ => st

/-- The catch block of `POST /api/analyze` (server.ts lines 191-228),
applied to the classified outcome of the forwarded call; the `success`
case is the tail of the try block (`res.json(response.data)`).  The
source checks `ECONNREFUSED` first, then `error.response`, then
`ENOTFOUND`, and otherwise answers the generic 500. -/
def analyzeUpstreamCase : UpstreamResult → GatewayResponse
  | .success d => .ok d
  | .connRefused =>
      .err 503 "AI service is currently unavailable. Please try again later."
        (some "Unable to connect to sentiment analysis service")
  | .httpResponse st body => .err st "AI service error" (some body)
  | .nameResolutionFailed =>
      .err 503 "AI service configuration error"
        (some "Cannot resolve AI service hostname")
  | .timeout =>
      .err 500 "Internal server error"
        (some "An unexpected error occurred while processing your request")
  | .other _ =>
      .err 500 "Internal server error"
        (some "An unexpected error occurred while processing your request")

/-- The `POST /api/analyze` handler (server.ts lines 156-229) on the
`text` field of the request body.  Returns the HTTP response together
with the list of payloads sent upstream.  A truthy non-string `text`
reaches `text.trim()` which throws a `TypeError`; the catch block sees
neither an axios `code` nor a `response` on it and answers the generic
500 — without any upstream call. -/
def analyzeHandler (text : JSValue) (u : UpstreamResult) :
    GatewayResponse × List (List Char) :=
  if !(truthy text) then
    (.err 400 "Text is required and cannot be empty" none, [])
  else
    match text with
    | .str s =>
        if (jsTrim s).length == 0 then
          (.err 400 "Text is required and cannot be empty" none, [])
        else if s.length > 5000 then
          (.err 400 "Text too long. Maximum 5000 characters allowed." none, [])
        else
          (analyzeUpstreamCase u, [jsTrim s])
    | _ =>
        (.err 500 "Internal server error"
          (some "An unexpected error occurred while processing your request"), [])

/-- The catch block of `POST /api/batch-analyze` (server.ts lines
277-304): `ECONNREFUSED`, then `error.response`, then the generic 500.
Unlike the single-analyze catch block it has no `ENOTFOUND` branch, so
`ENOTFOUND` (and a timeout, and anything else without a `response`)
falls through to the generic 500. -/
def batchUpstreamCase : UpstreamResult → GatewayResponse
  | .success d => .ok d
  | .connRefused =>
      .err 503 "AI service is currently unavailable. Please try again later."
        (some "Unable to connect to sentiment analysis service")
  | .httpResponse st body => .err st "AI service error" (some body)
  | .nameResolutionFailed =>
      .err 500 "Internal server error"
        (some "An unexpected error occurred while processing batch request")
  | .timeout =>
      .err 500 "Internal server error"
        (some "An unexpected error occurred while processing batch request")
  | .other _ =>
      .err 500 "Internal server error"
        (some "An unexpected error occurred while processing batch request")

/-- The element-validation loop of `POST /api/batch-analyze` (server.ts
lines 253-261), scanning from index `i`: the first index whose element is
not a string or trims to the empty string, if any. -/
def batchValidateLoop : Nat → List JSValue → Option Nat
  | _, [] => none
  | i, .str s :: rest =>
      if (jsTrim s).length == 0 then some i else batchValidateLoop (i + 1) rest
  | i, _ :: _ => some i

/-- The payload transformation `texts.map(text => text.trim())`
(server.ts line 265); only reached once the loop has checked every
element is a string, so the non-string fallback is never exercised. -/
def trimElem : JSValue → List Char
  | .str s => jsTrim s
  | _ => []

/-- The `POST /api/batch-analyze` handler (server.ts lines 232-305) on
the `texts` field of the request body, returning the HTTP response and
the list of payloads sent upstream. -/
def batchHandler (texts : JSValue) (u : UpstreamResult) :
    GatewayResponse × List (List (List Char)) :=
  match texts with
  | .arr xs =>
      if xs.length == 0 then
        (.err 400 "Texts array is required and cannot be empty" none, [])
      else if xs.length > 100 then
        (.err 400 "Too many texts. Maximum 100 texts allowed per batch." none, [])
      else
        match batchValidateLoop 0 xs with
        | some i =>
            (.err 400 ("Text at index " ++ toString i ++ " is invalid or empty")
              none, [])
        | none => (batchUpstreamCase u, [xs.map trimElem])
  | _ => (.err 400 "Texts array is required and cannot be empty" none, [])

/-- Outcome of the health probe `axios.get(SENTIMENT_ANALYSIS_URL +
"/health", {timeout: 5000})`: the upstream body, or a failure carrying
the `AxiosError` message. -/
inductive HealthUpstream where
  | success (data : JSValue)
  | failure (message : String)


/-- The response of `GET /api/health` (a `CombinedHealthResponse` plus
the HTTP status it is sent with). -/
structure CombinedHealthResponse where
  statusCode : Nat
  web_service : String
  ai_service : JSValue
  error : Option String


/-- The `GET /api/health` handler (server.ts lines 95-114): on success,
200 with the upstream body as `ai_service`; on failure, 503 with
`ai_service: 'unavailable'` and the error message — `web_service` is the
literal `'healthy'` on both paths. -/
def apiHealthHandler : HealthUpstream → CombinedHealthResponse
  | .success d => ⟨200, "healthy", d, none⟩
  | .failure m => ⟨503, "healthy", .str "unavailable".toList, some m⟩

/-- An element passes the per-element check of the batch loop: it is a
string and non-empty after trimming. -/
def validElem : JSValue → Bool
  | .str s => (jsTrim s).length != 0
  | _ => false

/-- The `text` payload is rejected by one of the explicit 400 validation
branches of `POST /api/analyze`: a falsy value, or a string that is
empty after trimming or longer than 5000 characters. -/
def analyzeRejects : JSValue → Bool
  | .str s => s.isEmpty || (jsTrim s).length == 0 || decide (s.length > 5000)
  | t => ! truthy t

/-- The `text` payload passes the validation of `POST /api/analyze`. -/
def analyzeAccepts : JSValue → Bool
  | .str s => (jsTrim s).length != 0 && decide (s.length ≤ 5000)
  | _ => false

/-- The `texts` payload is rejected by one of the explicit 400 validation
branches of `POST /api/batch-analyze`: not an array, empty, more than 100
elements, or some element failing the per-element check. -/
def batchRejects : JSValue → Bool
  | .arr xs =>
      xs.length == 0 || decide (xs.length > 100) || (batchValidateLoop 0 xs).isSome
  | _ => true

/-- The `texts` payload passes the validation of `POST /api/batch-analyze`. -/
def batchAccepts : JSValue → Bool
  | .arr xs => decide (0 < xs.length) && decide (xs.length ≤ 100) && xs.all validElem
  | _ => false

/-! ## Helper lemmas -/

theorem jsTrim_nil : jsTrim [] = [] := rfl

theorem dropWhile_isJsWs_replicate (n : Nat) (c : Char) (h : isJsWs c = true) :
    List.dropWhile isJsWs (List.replicate n c) = [] := by
  induction n with
  | zero => rfl
  | succ m ih => rw [List.replicate_succ, List.dropWhile_cons, h]; exact ih

theorem jsTrim_replicate_ws (n : Nat) (c : Char) (h : isJsWs c = true) :
    jsTrim (List.replicate n c) = [] := by
  unfold jsTrim
  rw [dropWhile_isJsWs_replicate n c h]
  simp

theorem jsTrim_replicate_nonws (n : Nat) (c : Char) (h : isJsWs c = false) :
    jsTrim (List.replicate n c) = List.replicate n c := by
  have hd : List.dropWhile isJsWs (List.replicate n c) = List.replicate n c := by
    cases n with
    | zero => rfl
    | succ m => rw [List.replicate_succ, List.dropWhile_cons, h]; simp
  unfold jsTrim
  rw [hd, List.reverse_replicate, hd, List.reverse_replicate]

theorem ne_nil_of_jsTrim_ne_nil {s : List Char} (h : (jsTrim s).length ≠ 0) :
    s ≠ [] := by
  intro hs
  subst hs
  exact h rfl

/-- Reduction of the analyze handler on a payload that passes both
validation checks. -/
theorem analyzeHandler_valid (s : List Char) (u : UpstreamResult)
    (htrim : (jsTrim s).length ≠ 0) (hlen : s.length ≤ 5000) :
    analyzeHandler (.str s) u = (analyzeUpstreamCase u, [jsTrim s]) := by
  obtain ⟨c, cs, rfl⟩ := List.exists_cons_of_ne_nil (ne_nil_of_jsTrim_ne_nil htrim)
  unfold analyzeHandler
  simp [truthy, htrim]
  simp only [List.length_cons] at hlen
  omega

/-- The element loop returns `none` when every element passes the
per-element check. -/
theorem batchValidateLoop_eq_none (k : Nat) (xs : List JSValue)
    (hall : ∀ x ∈ xs, validElem x = true) :
    batchValidateLoop k xs = none := by
  induction xs generalizing k with
  | nil => rfl
  | cons x rest ih =>
    have hx := hall x (List.mem_cons_self x rest)
    cases x with
    | str s =>
      have hs : ¬((jsTrim s).length = 0) := by simpa [validElem] using hx
      simp only [batchValidateLoop, beq_iff_eq, if_neg hs]
      exact ih (k + 1) fun y hy => hall y (List.mem_cons_of_mem _ hy)
    | num n => simp [validElem] at hx
    | bool b => simp [validElem] at hx
    | null => simp [validElem] at hx
    | undefined => simp [validElem] at hx
    | arr ys => simp [validElem] at hx
    | obj => simp [validElem] at hx

/-- The element loop started at `k` returns `k + i` when index `i` holds
the first element failing the per-element check. -/
theorem batchValidateLoop_eq_first (k i : Nat) (xs : List JSValue)
    (hi : i < xs.length)
    (hinv : validElem (xs.getD i .null) = false)
    (hbefore : ∀ j, j < i → validElem (xs.getD j .null) = true) :
    batchValidateLoop k xs = some (k + i) := by
  induction xs generalizing k i with
  | nil => simp at hi
  | cons x rest ih =>
    cases i with
    | zero =>
      have hx : validElem x = false := by simpa using hinv
      cases x with
      | str s =>
        have hs : (jsTrim s).length = 0 := by
          simpa [validElem] using hx
        simp [batchValidateLoop, hs]
      | num n => simp [batchValidateLoop]
      | bool b => simp [batchValidateLoop]
      | null => simp [batchValidateLoop]
      | undefined => simp [batchValidateLoop]
      | arr ys => simp [batchValidateLoop]
      | obj => simp [batchValidateLoop]
    | succ j =>
      have hx : validElem x = true := hbefore 0 (Nat.succ_pos j)
      cases x with
      | str s =>
        have hs : ¬((jsTrim s).length = 0) := by simpa [validElem] using hx
        simp only [batchValidateLoop, beq_iff_eq, if_neg hs]
        have hrec := ih (k + 1) j (by simpa using hi) (by simpa using hinv)
          (fun m hm => by simpa using hbefore (m + 1) (Nat.succ_lt_succ hm))
        rw [hrec]
        congr 1
        omega
      | num n => simp [validElem] at hx
      | bool b => simp [validElem] at hx
      | null => simp [validElem] at hx
      | undefined => simp [validElem] at hx
      | arr ys => simp [validElem] at hx
      | obj => simp [validElem] at hx

/-- Reduction of the batch handler on a payload that passes all three
validation checks. -/
theorem batchHandler_valid (xs : List JSValue) (u : UpstreamResult)
    (h1 : 0 < xs.length) (h2 : xs.length ≤ 100)
    (hall : ∀ x ∈ xs, validElem x = true) :
    batchHandler (.arr xs) u = (batchUpstreamCase u, [xs.map trimElem]) := by
  have h0 : ¬(xs.length = 0) := Nat.pos_iff_ne_zero.mp h1
  have h100 : ¬(xs.length > 100) := Nat.not_lt.mpr h2
  simp only [batchHandler, beq_iff_eq, if_neg h0, if_neg h100,
    batchValidateLoop_eq_none 0 xs hall]

/-- Reduction of the analyze handler on a string that trims to empty:
both the falsy branch (empty string) and the trimmed-empty branch yield
the same 400 response with no upstream call. -/
theorem analyzeHandler_blank (s : List Char) (u : UpstreamResult)
    (h : (jsTrim s).length = 0) :
    analyzeHandler (.str s) u =
      (.err 400 "Text is required and cannot be empty" none, []) := by
  cases s with
  | nil => rfl
  | cons c cs =>
    unfold analyzeHandler
    simp [truthy, h]

/-- Reduction of the analyze handler on a falsy `text` value: the
`!text` guard fires. -/
theorem analyzeHandler_falsy (t : JSValue) (u : UpstreamResult)
    (h : truthy t = false) :
    analyzeHandler t u =
      (.err 400 "Text is required and cannot be empty" none, []) := by
  unfold analyzeHandler
  rw [h]
  rfl

/-- Reduction of the analyze handler on a string longer than 5000
characters that does not trim to empty. -/
theorem analyzeHandler_toolong (s : List Char) (u : UpstreamResult)
    (hlen : s.length > 5000) (htrim : (jsTrim s).length ≠ 0) :
    analyzeHandler (.str s) u =
      (.err 400 "Text too long. Maximum 5000 characters allowed." none, []) := by
  obtain ⟨c, cs, rfl⟩ := List.exists_cons_of_ne_nil (ne_nil_of_jsTrim_ne_nil htrim)
  simp only [List.length_cons] at hlen
  unfold analyzeHandler
  simp [truthy, htrim]
  omega

/-! ## Claims -/

/-- C5: for every string `s` with `trim(s).length = 0` submitted as the
`text` field of `POST /api/analyze`, validation fails with HTTP 400 and
body `{"error": "Text is required and cannot be empty"}`, with no other
outcome (in particular no upstream call). -/
theorem C5_analyze_blank_text_rejected (s : List Char) (u : UpstreamResult)
    (h : (jsTrim s).length = 0) :
    analyzeHandler (.str s) u =
      (.err 400 "Text is required and cannot be empty" none, []) :=
  analyzeHandler_blank s u h

/-- Witness for C5 at the one-space string. -/
theorem C5_witness :
    (jsTrim [' ']).length = 0 ∧
    analyzeHandler (.str [' ']) (.success .null) =
      (.err 400 "Text is required and cannot be empty" none, []) :=
  ⟨rfl, C5_analyze_blank_text_rejected [' '] (.success .null) rfl⟩

/-- C1 counterexample: the 5001-space string has untrimmed length
greater than 5000, yet the handler answers the empty-text error (the
trim-empty check runs first), not the too-long error the claim
requires. -/
theorem C1_counterexample :
    (List.replicate 5001 ' ').length > 5000 ∧
    (analyzeHandler (.str (List.replicate 5001 ' ')) (.success .null)).1 =
      .err 400 "Text is required and cannot be empty" none ∧
    "Text is required and cannot be empty" ≠
      "Text too long. Maximum 5000 characters allowed." := by
  have h0 : (jsTrim (List.replicate 5001 ' ')).length = 0 := by
    rw [jsTrim_replicate_ws 5001 ' ' (by decide)]
    rfl
  refine ⟨by rw [List.length_replicate]; omega, ?_, by decide⟩
  rw [analyzeHandler_blank _ (.success .null) h0]

/-- C1 (amended): for every string `s` with `s.length > 5000` whose
trimmed length is non-zero, validation fails with the too-long error
(HTTP 400, "Text too long. Maximum 5000 characters allowed."),
regardless of the trimmed length; when the string trims to empty the
empty-text error takes precedence instead. -/
theorem C1_amended_toolong (s : List Char) (u : UpstreamResult)
    (hlen : s.length > 5000) (htrim : (jsTrim s).length ≠ 0) :
    analyzeHandler (.str s) u =
      (.err 400 "Text too long. Maximum 5000 characters allowed." none, []) :=
  analyzeHandler_toolong s u hlen htrim

/-- Witness for the amended C1 at the 5001-fold 'a' string. -/
theorem C1_witness :
    (List.replicate 5001 'a').length > 5000 ∧
    (jsTrim (List.replicate 5001 'a')).length ≠ 0 ∧
    analyzeHandler (.str (List.replicate 5001 'a')) (.success .null) =
      (.err 400 "Text too long. Maximum 5000 characters allowed." none, []) := by
  have h1 : (List.replicate 5001 'a').length > 5000 := by
    rw [List.length_replicate]
    omega
  have h2 : (jsTrim (List.replicate 5001 'a')).length ≠ 0 := by
    rw [jsTrim_replicate_nonws 5001 'a' (by decide), List.length_replicate]
    omega
  exact ⟨h1, h2, C1_amended_toolong _ (.success .null) h1 h2⟩

/-- C9: for `POST /api/analyze`, a truthy non-string `text` (a number,
a boolean `true`, an array, an object) is not rejected with a 400:
`text.trim()` throws, the catch block matches none of the axios
classifications, and the client receives the generic 500 — with no
upstream call made. -/
theorem C9_truthy_nonstring_500 (t : JSValue) (u : UpstreamResult)
    (htruthy : truthy t = true) (hnotstr : ∀ s, t ≠ JSValue.str s) :
    analyzeHandler t u =
      (.err 500 "Internal server error"
        (some "An unexpected error occurred while processing your request"), []) ∧
    (analyzeHandler t u).1.statusCode ≠ 400 := by
  have h : analyzeHandler t u =
      (.err 500 "Internal server error"
        (some "An unexpected error occurred while processing your request"), []) := by
    cases t with
    | str s => exact absurd rfl (hnotstr s)
    | num n => simp [analyzeHandler, htruthy]
    | bool b => simp [analyzeHandler, htruthy]
    | null => simp [truthy] at htruthy
    | undefined => simp [truthy] at htruthy
    | arr xs => simp [analyzeHandler, htruthy]
    | obj => simp [analyzeHandler, htruthy]
  refine ⟨h, ?_⟩
  rw [h]
  simp [GatewayResponse.statusCode]

/-- Witness for C9 at `text = 42`. -/
theorem C9_witness :
    truthy (.num 42) = true ∧
    analyzeHandler (.num 42) (.success .null) =
      (.err 500 "Internal server error"
        (some "An unexpected error occurred while processing your request"), []) :=
  ⟨by decide,
    (C9_truthy_nonstring_500 (.num 42) (.success .null) (by decide)
      (fun _ h => nomatch h)).1⟩

/-- C2 counterexample: on `POST /api/batch-analyze` a name-resolution
failure (`ENOTFOUND`) on a validated request is answered with the
generic 500, not the claimed 503 configuration error — the batch catch
block has no `ENOTFOUND` branch. -/
theorem C2_counterexample :
    (batchHandler (.arr [.str ['h', 'i']]) .nameResolutionFailed).1 =
      .err 500 "Internal server error"
        (some "An unexpected error occurred while processing batch request") ∧
    (500 : Nat) ≠ 503 ∧
    "Internal server error" ≠ "AI service configuration error" :=
  ⟨rfl, by decide, by decide⟩

/-- C2 (amended): `ENOTFOUND` is mapped to HTTP 503 with error
"AI service configuration error" and details "Cannot resolve AI service
hostname" on `POST /api/analyze` only; `POST /api/batch-analyze` has no
`ENOTFOUND` branch and maps it to the generic 500 "Internal server
error".  Each route's mapping remains deterministic and total over the
classified failures. -/
theorem C2_amended_enotfound (s : List Char) (xs : List JSValue)
    (htrim : (jsTrim s).length ≠ 0) (hlen : s.length ≤ 5000)
    (h1 : 0 < xs.length) (h2 : xs.length ≤ 100)
    (hall : ∀ x ∈ xs, validElem x = true) :
    (analyzeHandler (.str s) .nameResolutionFailed).1 =
      .err 503 "AI service configuration error"
        (some "Cannot resolve AI service hostname") ∧
    (batchHandler (.arr xs) .nameResolutionFailed).1 =
      .err 500 "Internal server error"
        (some "An unexpected error occurred while processing batch request") := by
  rw [analyzeHandler_valid s _ htrim hlen, batchHandler_valid xs _ h1 h2 hall]
  exact ⟨rfl, rfl⟩

/-- Witness for the amended C2 at `text = "h"` and `texts = ["ok"]`. -/
theorem C2_witness :
    (analyzeHandler (.str ['h']) .nameResolutionFailed).1 =
      .err 503 "AI service configuration error"
        (some "Cannot resolve AI service hostname") ∧
    (batchHandler (.arr [.str ['o', 'k']]) .nameResolutionFailed).1 =
      .err 500 "Internal server error"
        (some "An unexpected error occurred while processing batch request") :=
  C2_amended_enotfound ['h'] [.str ['o', 'k']] (by decide) (by decide)
    (by decide) (by decide) (by decide)

/-- C3: batch validation scans `texts` left to right and answers HTTP
400 with "Text at index {i} is invalid or empty" for the first index
`i` whose element is not a string or trims to empty, reporting only
that first index even when later elements are invalid too, with no
upstream call. -/
theorem C3_batch_first_invalid_index (xs : List JSValue) (u : UpstreamResult)
    (i : Nat) (hlen : xs.length ≤ 100) (hi : i < xs.length)
    (hinv : validElem (xs.getD i .null) = false)
    (hbefore : ∀ j, j < i → validElem (xs.getD j .null) = true) :
    batchHandler (.arr xs) u =
      (.err 400 ("Text at index " ++ toString i ++ " is invalid or empty") none,
        []) := by
  have h0 : ¬(xs.length = 0) := by omega
  have h100 : ¬(xs.length > 100) := Nat.not_lt.mpr hlen
  have hloop := batchValidateLoop_eq_first 0 i xs hi hinv hbefore
  rw [Nat.zero_add] at hloop
  simp only [batchHandler, beq_iff_eq, if_neg h0, if_neg h100, hloop]

/-- Witness for C3 at `["ok", "", "  "]`: index 1 is reported, not 2. -/
theorem C3_witness :
    batchHandler (.arr [.str ['o', 'k'], .str [], .str [' ', ' ']])
        (.success .null) =
      (.err 400 "Text at index 1 is invalid or empty" none, []) := by
  have h := C3_batch_first_invalid_index
    [.str ['o', 'k'], .str [], .str [' ', ' ']] (.success .null) 1
    (by decide) (by decide) (by decide)
    (fun j hj => by
      rw [Nat.lt_one_iff] at hj
      subst hj
      decide)
  rw [h]
  rfl

/-- C4: batch validation rejects a `texts` array of length 0 with the
empty-array error and of length > 100 with the too-many error; for
length in [1,100] with every element a string that is non-empty after
trimming, validation succeeds, the response is the mapped upstream
outcome, and the single forwarded payload is the element-wise trimmed
sequence with length (and order) unchanged. -/
theorem C4_batch_bounds_and_trim (xs : List JSValue) (u : UpstreamResult) :
    (xs.length = 0 →
      batchHandler (.arr xs) u =
        (.err 400 "Texts array is required and cannot be empty" none, [])) ∧
    (xs.length > 100 →
      batchHandler (.arr xs) u =
        (.err 400 "Too many texts. Maximum 100 texts allowed per batch." none,
          [])) ∧
    (0 < xs.length → xs.length ≤ 100 → (∀ x ∈ xs, validElem x = true) →
      (batchHandler (.arr xs) u).1 = batchUpstreamCase u ∧
      (batchHandler (.arr xs) u).2 = [xs.map trimElem] ∧
      (xs.map trimElem).length = xs.length ∧
      ∀ i, i < xs.length →
        (xs.map trimElem).getD i [] = trimElem (xs.getD i .null)) := by
  refine ⟨?_, ?_, ?_⟩
  · intro h
    have hnil : xs = [] := List.length_eq_zero.mp h
    subst hnil
    rfl
  · intro h
    have h0 : ¬(xs.length = 0) := by omega
    simp only [batchHandler, beq_iff_eq, if_neg h0, if_pos h]
  · intro h1 h2 hall
    rw [batchHandler_valid xs u h1 h2 hall]
    refine ⟨rfl, rfl, List.length_map .., ?_⟩
    intro i hi
    have hx : xs[i]? = some xs[i] := List.getElem?_eq_getElem hi
    rw [List.getD_eq_getElem?_getD, List.getElem?_map, hx,
      List.getD_eq_getElem?_getD, hx]
    rfl

/-- Witness for C4 at `[]`, a 101-element array, and `[" a", "b "]`. -/
theorem C4_witness :
    batchHandler (.arr []) (.success .null) =
      (.err 400 "Texts array is required and cannot be empty" none, []) ∧
    batchHandler (.arr (List.replicate 101 (JSValue.str ['a'])))
        (.success .null) =
      (.err 400 "Too many texts. Maximum 100 texts allowed per batch." none,
        []) ∧
    (batchHandler (.arr [.str [' ', 'a'], .str ['b', ' ']])
        (.success .null)).2 = [[['a'], ['b']]] := by
  refine ⟨(C4_batch_bounds_and_trim [] (.success .null)).1 rfl, ?_, ?_⟩
  · exact (C4_batch_bounds_and_trim _ (.success .null)).2.1
      (by rw [List.length_replicate]; omega)
  · have h := ((C4_batch_bounds_and_trim [.str [' ', 'a'], .str ['b', ' ']]
      (.success .null)).2.2 (by decide) (by decide) (by decide)).2.1
    rw [h]
    decide

/-- C6: for every upstream non-2xx HTTP response to a validated analyze
or batch-analyze request, the gateway answers with the upstream status
(passthrough), error "AI service error", and the upstream body in the
`details` field, on both routes. -/
theorem C6_upstream_error_passthrough (s : List Char) (xs : List JSValue)
    (st : Nat) (body : String)
    (htrim : (jsTrim s).length ≠ 0) (hlen : s.length ≤ 5000)
    (h1 : 0 < xs.length) (h2 : xs.length ≤ 100)
    (hall : ∀ x ∈ xs, validElem x = true) :
    (analyzeHandler (.str s) (.httpResponse st body)).1 =
      .err st "AI service error" (some body) ∧
    (batchHandler (.arr xs) (.httpResponse st body)).1 =
      .err st "AI service error" (some body) := by
  rw [analyzeHandler_valid s _ htrim hlen, batchHandler_valid xs _ h1 h2 hall]
  exact ⟨rfl, rfl⟩

/-- Witness for C6 at an upstream 422 response. -/
theorem C6_witness :
    (analyzeHandler (.str ['h']) (.httpResponse 422 "unprocessable")).1 =
      .err 422 "AI service error" (some "unprocessable") ∧
    (batchHandler (.arr [.str ['o', 'k']])
        (.httpResponse 422 "unprocessable")).1 =
      .err 422 "AI service error" (some "unprocessable") :=
  C6_upstream_error_passthrough ['h'] [.str ['o', 'k']] 422 "unprocessable"
    (by decide) (by decide) (by decide) (by decide) (by decide)

/-- C7: `GET /api/health` reports `web_service: "healthy"` on both
paths; when the upstream probe fails the route answers 503 with
`ai_service: "unavailable"` and an error field, never reporting the web
service itself as unhealthy. -/
theorem C7_health_web_service_always_healthy (u : HealthUpstream) :
    (apiHealthHandler u).web_service = "healthy" ∧
    ∀ m, u = .failure m →
      (apiHealthHandler u).statusCode = 503 ∧
      (apiHealthHandler u).ai_service = .str "unavailable".toList ∧
      (apiHealthHandler u).error = some m := by
  cases u with
  | success d => exact ⟨rfl, fun m h => nomatch h⟩
  | failure m0 =>
      refine ⟨rfl, fun m h => ?_⟩
      injection h with hm
      subst hm
      exact ⟨rfl, rfl, rfl⟩

/-- Witness for C7 with the upstream probe down. -/
theorem C7_witness :
    (apiHealthHandler (.failure "connect ECONNREFUSED")).web_service =
      "healthy" ∧
    (apiHealthHandler (.failure "connect ECONNREFUSED")).statusCode = 503 ∧
    (apiHealthHandler (.failure "connect ECONNREFUSED")).ai_service =
      .str "unavailable".toList ∧
    (apiHealthHandler (.failure "connect ECONNREFUSED")).error =
      some "connect ECONNREFUSED" := by
  have h :=
    C7_health_web_service_always_healthy (.failure "connect ECONNREFUSED")
  exact ⟨h.1, h.2 _ rfl⟩

/-- C8: on both proxy routes, a payload that fails validation is
answered 400 with no outbound call (validation short-circuits before
forwarding), and a payload that passes validation causes exactly one
outbound call, with no retry. -/
theorem C8_validation_short_circuit (text texts : JSValue)
    (u v : UpstreamResult) :
    (analyzeRejects text = true →
      (analyzeHandler text u).1.statusCode = 400 ∧
      (analyzeHandler text u).2 = []) ∧
    (analyzeAccepts text = true → (analyzeHandler text u).2.length = 1) ∧
    (batchRejects texts = true →
      (batchHandler texts v).1.statusCode = 400 ∧
      (batchHandler texts v).2 = []) ∧
    (batchAccepts texts = true → (batchHandler texts v).2.length = 1) := by
  refine ⟨?_, ?_, ?_, ?_⟩
  · intro hr
    cases text with
    | str s =>
        by_cases h0 : (jsTrim s).length = 0
        · rw [analyzeHandler_blank s u h0]
          exact ⟨rfl, rfl⟩
        · have hs : s ≠ [] := fun hnil => h0 (by rw [hnil]; rfl)
          have hemp : s.isEmpty = false := by
            cases s with
            | nil => exact absurd rfl hs
            | cons a l => rfl
          have hlen : s.length > 5000 := by
            simpa [analyzeRejects, hemp, h0] using hr
          rw [analyzeHandler_toolong s u hlen h0]
          exact ⟨rfl, rfl⟩
    | num n =>
        have ht : truthy (.num n) = false := by
          simpa [analyzeRejects] using hr
        rw [analyzeHandler_falsy _ u ht]
        exact ⟨rfl, rfl⟩
    | bool b =>
        have ht : truthy (.bool b) = false := by
          simpa [analyzeRejects] using hr
        rw [analyzeHandler_falsy _ u ht]
        exact ⟨rfl, rfl⟩
    | null => rw [analyzeHandler_falsy JSValue.null u rfl]; exact ⟨rfl, rfl⟩
    | undefined =>
        rw [analyzeHandler_falsy JSValue.undefined u rfl]
        exact ⟨rfl, rfl⟩
    | arr ys => simp [analyzeRejects, truthy] at hr
    | obj => simp [analyzeRejects, truthy] at hr
  · intro ha
    cases text with
    | str s =>
        have h : (jsTrim s).length ≠ 0 ∧ s.length ≤ 5000 := by
          simpa [analyzeAccepts] using ha
        rw [analyzeHandler_valid s u h.1 h.2]
        rfl
    | num n => simp [analyzeAccepts] at ha
    | bool b => simp [analyzeAccepts] at ha
    | null => simp [analyzeAccepts] at ha
    | undefined => simp [analyzeAccepts] at ha
    | arr ys => simp [analyzeAccepts] at ha
    | obj => simp [analyzeAccepts] at ha
  · intro hr
    cases texts with
    | arr xs =>
        by_cases hz : xs.length = 0
        · have hnil : xs = [] := List.length_eq_zero.mp hz
          subst hnil
          exact ⟨rfl, rfl⟩
        · by_cases hb : xs.length > 100
          · have hh : batchHandler (.arr xs) v =
                (.err 400 "Too many texts. Maximum 100 texts allowed per batch."
                  none, []) := by
              simp only [batchHandler, beq_iff_eq, if_neg hz, if_pos hb]
            rw [hh]
            exact ⟨rfl, rfl⟩
          · have hsome : (batchValidateLoop 0 xs).isSome = true := by
              simpa [batchRejects, hz, hb] using hr
            obtain ⟨i, hi⟩ := Option.isSome_iff_exists.mp hsome
            have hh : batchHandler (.arr xs) v =
                (.err 400 ("Text at index " ++ toString i ++
                  " is invalid or empty") none, []) := by
              simp only [batchHandler, beq_iff_eq, if_neg hz, if_neg hb, hi]
            rw [hh]
            exact ⟨rfl, rfl⟩
    | str s => exact ⟨rfl, rfl⟩
    | num n => exact ⟨rfl, rfl⟩
    | bool b => exact ⟨rfl, rfl⟩
    | null => exact ⟨rfl, rfl⟩
    | undefined => exact ⟨rfl, rfl⟩
    | obj => exact ⟨rfl, rfl⟩
  · intro ha
    cases texts with
    | arr xs =>
        have h : (0 < xs.length ∧ xs.length ≤ 100) ∧
            ∀ x ∈ xs, validElem x = true := by
          simpa [batchAccepts, List.all_eq_true] using ha
        rw [batchHandler_valid xs v h.1.1 h.1.2 h.2]
        rfl
    | str s => simp [batchAccepts] at ha
    | num n => simp [batchAccepts] at ha
    | bool b => simp [batchAccepts] at ha
    | null => simp [batchAccepts] at ha
    | undefined => simp [batchAccepts] at ha
    | obj => simp [batchAccepts] at ha

/-- Witness for C8: a rejected and an accepted payload on each route. -/
theorem C8_witness :
    ((analyzeHandler (.str [' ']) (.success .null)).1.statusCode = 400 ∧
      (analyzeHandler (.str [' ']) (.success .null)).2 = []) ∧
    (analyzeHandler (.str ['h']) (.success .null)).2.length = 1 ∧
    ((batchHandler (.arr []) (.success .null)).1.statusCode = 400 ∧
      (batchHandler (.arr []) (.success .null)).2 = []) ∧
    (batchHandler (.arr [.str ['h']]) (.success .null)).2.length = 1 := by
  refine ⟨?_, ?_, ?_, ?_⟩
  · exact (C8_validation_short_circuit (.str [' ']) (.arr [])
      (.success .null) (.success .null)).1 (by decide)
  · exact (C8_validation_short_circuit (.str ['h']) (.arr [])
      (.success .null) (.success .null)).2.1 (by decide)
  · exact (C8_validation_short_circuit (.str [' ']) (.arr [])
      (.success .null) (.success .null)).2.2.1 (by decide)
  · exact (C8_validation_short_circuit (.str [' ']) (.arr [.str ['h']])
      (.success .null) (.success .null)).2.2.2 (by decide)

/-- C10: batch validation imposes no per-element maximum length — any
array of 1 to 100 strings that are non-empty after trimming passes
validation and is forwarded upstream, with no hypothesis on element
lengths — while the single-text route rejects any text longer than
5000 characters. -/
theorem C10_batch_no_element_cap (xs : List JSValue) (s : List Char)
    (u v : UpstreamResult)
    (h1 : 0 < xs.length) (h2 : xs.length ≤ 100)
    (hall : ∀ x ∈ xs, validElem x = true)
    (hs : (jsTrim s).length ≠ 0) (hlong : s.length > 5000) :
    batchHandler (.arr xs) u = (batchUpstreamCase u, [xs.map trimElem]) ∧
    analyzeHandler (.str s) v =
      (.err 400 "Text too long. Maximum 5000 characters allowed." none, []) :=
  ⟨batchHandler_valid xs u h1 h2 hall, analyzeHandler_toolong s v hlong hs⟩

/-- Witness for C10 at a batch whose single element has 5001
characters: the batch is forwarded while the same text on the single
route is rejected. -/
theorem C10_witness :
    (List.replicate 5001 'a').length > 5000 ∧
    batchHandler (.arr [.str (List.replicate 5001 'a')]) (.success .null) =
      (.ok .null, [[List.replicate 5001 'a']]) ∧
    analyzeHandler (.str (List.replicate 5001 'a')) (.success .null) =
      (.err 400 "Text too long. Maximum 5000 characters allowed." none, []) := by
  have hlen : (List.replicate 5001 'a').length > 5000 := by
    rw [List.length_replicate]
    omega
  have htr : jsTrim (List.replicate 5001 'a') = List.replicate 5001 'a' :=
    jsTrim_replicate_nonws 5001 'a' (by decide)
  have hne : (jsTrim (List.replicate 5001 'a')).length ≠ 0 := by
    rw [htr, List.length_replicate]
    omega
  have hall : ∀ x ∈ [JSValue.str (List.replicate 5001 'a')],
      validElem x = true := by
    intro x hx
    rw [List.mem_singleton] at hx
    subst hx
    show ((jsTrim (List.replicate 5001 'a')).length != 0) = true
    rw [htr, List.length_replicate]
    rfl
  have h := C10_batch_no_element_cap [JSValue.str (List.replicate 5001 'a')]
    (List.replicate 5001 'a') (.success .null) (.success .null)
    (Nat.one_pos) (by rw [List.length_singleton]; omega) hall hne hlen
  refine ⟨hlen, ?_, h.2⟩
  rw [h.1]
  rw [show List.map trimElem [JSValue.str (List.replicate 5001 'a')] =
    [jsTrim (List.replicate 5001 'a')] from rfl, htr]
  rfl
